import Mathlib

/-!
Verification development for the loan-processing backend.

The Python source (`app/api.py`, `app/services/ofac_service.py`,
`app/exceptions.py`, `app/config.py`, `app/models.py`) is shallowly embedded
below.  Money and the simulated random draw are modelled as rationals (the
Python floats only ever carry values that are exact in binary at the
magnitudes involved); timestamps are naturals; the spreadsheet lookup, the
LLM text generator and the external OFAC API are modelled as explicit
function/outcome parameters, mirroring how the code consumes them.
-/

namespace LoanProc

/-! ### Python string primitives

Structural (kernel-reducible) models of the Python `str` operations used by
the source: `strip`, `lower`, `replace` and whitespace `split`.
-/

/-- Python `str.strip()`: drop leading and trailing whitespace. -/
def pyStrip (s : String) : String :=
  ⟨((s.data.dropWhile Char.isWhitespace).reverse.dropWhile Char.isWhitespace).reverse⟩

/-- Python `str.lower()` (ASCII case fold, which is all the source needs). -/
def pyLower (s : String) : String := ⟨s.data.map Char.toLower⟩

/-- Replace non-overlapping occurrences of `pat` left to right, as Python
`str.replace` does for a non-empty pattern.  The fuel is the input length,
which suffices because every step consumes at least one character. -/
def pyReplaceFuel (pat rep : List Char) : Nat → List Char → List Char
  | 0, l => l
  | _ + 1, [] => []
  | fuel + 1, c :: rest =>
    if pat.isPrefixOf (c :: rest) then
      rep ++ pyReplaceFuel pat rep fuel (List.drop pat.length (c :: rest))
    else
      c :: pyReplaceFuel pat rep fuel rest

/-- Python `s.replace(pat, rep)` for a non-empty `pat`. -/
def pyReplace (s pat rep : String) : String :=
  ⟨pyReplaceFuel pat.data rep.data s.data.length s.data⟩

/-- Helper for `pySplit`: accumulate the current (reversed) token. -/
def pySplitAux : List Char → List Char → List String
  | [], acc => if acc.isEmpty then [] else [⟨acc.reverse⟩]
  | c :: rest, acc =>
    if c.isWhitespace then
      if acc.isEmpty then pySplitAux rest [] else ⟨acc.reverse⟩ :: pySplitAux rest []
    else
      pySplitAux rest (c :: acc)

/-- Python `str.split()` with no argument: split on whitespace runs and drop
empty tokens. -/
def pySplit (s : String) : List String := pySplitAux s.data []

/-- Substring test over character lists (structural, decidable). -/
def containsSub : List Char → List Char → Bool
  | [], pat => pat.isEmpty
  | c :: rest, pat => pat.isPrefixOf (c :: rest) || containsSub rest pat

/-- Whether a status string mentions the fail-closed phrase
`manual review required`. -/
def mentionsManualReview (s : String) : Bool :=
  containsSub s.data "manual review required".data

/-! ### OFAC service (`app/services/ofac_service.py`) -/

/-- `OFACService.cache_ttl` (line 30): one hour, in seconds. -/
def cache_ttl : Nat := 3600

/-- `OFACService.sanctioned_names` (lines 19-26).  The source stores these in
a Python `set`, whose iteration order is arbitrary; the list below fixes the
textual order of the source, and every theorem that depends on which entry a
loop finds first is stated so that it holds for any order (via existentials
or pairwise-distinct normalized forms). -/
def sanctioned_names : List String :=
  ["Stephanie Martin", "Sanctioned Person", "John Terrorist",
   "Jane Criminal", "Bad Actor", "Money Launderer"]

/-- `OFACService._normalize_name` (lines 32-34):
`name.strip().lower().replace('  ', ' ')`.  Note the `replace` performs a
single left-to-right pass replacing each double space with one space; it does
not fully collapse longer whitespace runs. -/
def normalize_name (name : String) : String :=
  pyReplace (pyLower (pyStrip name)) "  " " "

/-- One entry of `OFACService.check_cache` (lines 49-55). -/
structure CacheEntry where
  result : Bool
  status : String
  timestamp : Nat
deriving DecidableEq, Repr

/-- `OFACService.check_cache`: mapping from normalized name to entry. -/
abbrev OFACCache := List (String × CacheEntry)

/-- `OFACService._is_cache_valid` (lines 36-38). -/
def is_cache_valid (now : Nat) (entry : CacheEntry) : Bool :=
  now - entry.timestamp < cache_ttl

/-- `OFACService._get_cached_result` (lines 40-47). -/
def get_cached_result (now : Nat) (cache : OFACCache) (normalized : String) :
    Option (Bool × String) :=
  match cache.find? (fun p => p.1 = normalized) with
  | some p => if is_cache_valid now p.2 then some (p.2.result, p.2.status) else none
  | none => none

/-- `OFACService._cache_result` (lines 49-55): write/refresh the entry for
the normalized name. -/
def cache_result (cache : OFACCache) (normalized : String) (result : Bool)
    (status : String) (now : Nat) : OFACCache :=
  (normalized, ⟨result, status, now⟩) :: cache.filter (fun p => ¬ p.1 = normalized)

/-- `OFACService._clean_cache` (lines 57-65): drop entries older than the TTL. -/
def clean_cache (now : Nat) (cache : OFACCache) : OFACCache :=
  cache.filter (fun p => ¬ (cache_ttl < now - p.2.timestamp))

/-- Number of distinct whitespace-delimited tokens the two strings share —
`len(user_words.intersection(sanctioned_words))` of lines 189-192. -/
def shared_token_count (a b : String) : Nat :=
  ((pySplit a).dedup.filter (fun t => (pySplit b).contains t)).length

/-- First denylist entry whose normalized form equals the given normalized
name (exact-match loop, lines 181-183). -/
def exact_match_entry (normalized : String) : Option String :=
  sanctioned_names.find? (fun e => normalized = normalize_name e)

/-- First denylist entry sharing at least two tokens with the given
normalized name (fuzzy-match loop, lines 186-193). -/
def fuzzy_match_entry (normalized : String) : Option String :=
  sanctioned_names.find? (fun e => 2 ≤ shared_token_count normalized (normalize_name e))

/-- Status string of the exact-match branch (line 183). -/
def exact_match_status (entry : String) : String :=
  "Exact match found on sanctions list: " ++ entry

/-- Status string of the fuzzy-match branch (line 193). -/
def fuzzy_match_status (entry : String) : String :=
  "Potential partial match found: " ++ entry ++ " - manual review required"

/-- The random tail of `_simulate_ofac_check` (lines 198-205): the two
simulated false-positive bands on the `random.random()` draw. -/
def random_gate (rand_val : ℚ) : Bool × String :=
  if rand_val > 95 / 100 then
    (false, "Random compliance check triggered - manual review required")
  else if rand_val > 90 / 100 then
    (false, "Potential match found in extended database - manual review required")
  else
    (true, "OFAC sanctions check passed - no matches found")

/-- `OFACService._simulate_ofac_check` (lines 173-205).  `rand_val` models
the `random.random()` draw of line 199; the `time.sleep` of line 196 has no
observable effect in this model. -/
def simulate_ofac_check (rand_val : ℚ) (user_name : String) : Bool × String :=
  let normalized := normalize_name user_name
  match exact_match_entry normalized with
  | some entry => (false, exact_match_status entry)
  | none =>
    match fuzzy_match_entry normalized with
    | some entry => (false, fuzzy_match_status entry)
    | none => random_gate rand_val

/-- Outcome of the external OFAC API call made by `_check_real_ofac_api`
(lines 122-171): either an HTTP 200 with a parsed match score, a non-200
status, or a raised `requests` exception. -/
inductive ApiOutcome where
  | success (has_matches : Bool) (highest_score : ℚ)
  | rateLimited
  | httpError (code : Nat)
  | timeout
  | requestFailed
deriving DecidableEq, Repr

/-- `OFACService._check_real_ofac_api` (lines 122-171), as a function of the
external call's outcome.  The `Timeout` and `RequestException` handlers of
lines 165-171 are the last two cases. -/
def check_real_ofac_api : ApiOutcome → Bool × String
  | .success has_matches score =>
    if has_matches then
      if score > 8 / 10 then (false, "High confidence match found on sanctions list")
      else if score > 6 / 10 then (false, "Potential match found - manual review required")
      else (true, "Low confidence matches - cleared")
    else (true, "No matches found - OFAC check passed")
  | .rateLimited => (false, "OFAC check rate limited - manual review required")
  | .httpError _ => (false, "OFAC API error - manual review required")
  | .timeout => (false, "OFAC check timeout - manual review required")
  | .requestFailed => (false, "OFAC check failed - manual review required")

/-- Status returned by the catch-all handler of `check_sanctions`
(lines 114-120). -/
def ofac_error_status : String := "OFAC check failed - manual review required"

/-- Service-level configuration: whether a real OFAC API is wired in
(`settings.ofac_api_url and settings.ofac_api_key`, line 96; both default to
`None` in `config.py`). -/
structure OFACConfig where
  api_configured : Bool
deriving DecidableEq, Repr

/-- Per-call environment: the `random.random()` draw used if the simulation
runs, the external API outcome used if the API is configured, and
`raised_fault`, which models any exception raised inside the `try` block of
`check_sanctions` (for example a malformed-response parse error escaping
`_check_real_ofac_api`, or a logging failure) and handled by the
`except Exception` catch-all of lines 114-120. -/
structure CallEnv where
  rand_val : ℚ
  api_outcome : ApiOutcome
  raised_fault : Bool
deriving DecidableEq, Repr

/-- `OFACService.check_sanctions` (lines 71-120).  The empty-name
`OFACCheckException` raised at line 80 lands in the same catch-all as any
other exception, so both produce the fail-closed `ofac_error_status` without
touching the cache. -/
def check_sanctions (cfg : OFACConfig) (call : CallEnv) (now : Nat)
    (cache : OFACCache) (user_name : String) : Bool × String × OFACCache :=
  if call.raised_fault then (false, ofac_error_status, cache)
  else if pyStrip user_name = "" then (false, ofac_error_status, cache)
  else
    let normalized := normalize_name user_name
    match get_cached_result now cache normalized with
    | some rs => (rs.1, rs.2, cache)
    | none =>
      let cache1 := if 1000 < cache.length then clean_cache now cache else cache
      let rs :=
        if cfg.api_configured then check_real_ofac_api call.api_outcome
        else simulate_ofac_check call.rand_val user_name
      (rs.1, rs.2, cache_result cache1 normalized rs.1 rs.2 now)

/-! ### Data model (`app/models.py`, the `user_sessions` dict of `app/api.py`) -/

/-- One row of the users spreadsheet as consumed by the workflow
(`excel_service.get_user_data`): the `Name`, `Monthly Income`,
`Monthly Expenses` and optional `Existing Loan` columns.  The invariant
columns (email, phone, ...) are never read by the workflow. -/
structure UserRecord where
  name : String
  monthly_income : ℚ
  monthly_expenses : ℚ
  existing_loan : Option ℚ
deriving DecidableEq, Repr

/-- A value stored in a session's free-form `context` dict. -/
inductive CtxVal where
  | str (v : String)
  | num (v : ℚ)
  | flag (v : Bool)
  | time (v : Nat)
deriving DecidableEq, Repr

/-- A session's `context` dict: association list from key to value. -/
abbrev Ctx := List (String × CtxVal)

/-- Python dict update `d[k] = v` (also the per-key effect of a
`{**old, k: v}` merge): overwrite in place or append. -/
def ctxSet (c : Ctx) (k : String) (v : CtxVal) : Ctx :=
  if c.any (fun p => p.1 = k) then
    c.map (fun p => if p.1 = k then (k, v) else p)
  else
    c ++ [(k, v)]

/-- One entry of the `user_sessions` dict (`api.py` line 81).  Keys that a
given endpoint has not written yet are `Option`/defaulted fields, mirroring
the `session.get(key, default)` reads in the source. -/
structure Session where
  step : String
  context : Ctx
  created_at : Nat
  loan_type : Option String := none
  user_data : Option UserRecord := none
  llm_message : Option String := none
  process_complete : Bool := false
  loan_amount : Option ℚ := none
  eligibility : Option Bool := none
  eligible_amount : Option ℚ := none
  total_eligibility : Option ℚ := none
  calculation_timestamp : Option Nat := none
deriving DecidableEq, Repr

/-- The halt message a halted session replays:
`session.get('llm_message', 'Process cannot continue.')`. -/
def haltMsg (s : Session) : String := s.llm_message.getD "Process cannot continue."

/-- The `user_sessions` store: association list from user id to session. -/
abbrev Store := List (String × Session)

/-- `user_id in user_sessions` / `user_sessions[user_id]` read. -/
def lookupStore (store : Store) (uid : String) : Option Session :=
  (store.find? (fun p => p.1 = uid)).map (fun p => p.2)

/-- `user_sessions[user_id] = session` (create or replace). -/
def insertStore (store : Store) (uid : String) (s : Session) : Store :=
  (uid, s) :: store.filter (fun p => ¬ p.1 = uid)

/-- `del user_sessions[user_id]`. -/
def eraseStore (store : Store) (uid : String) : Store :=
  store.filter (fun p => ¬ p.1 = uid)

/-! ### Error taxonomy (`app/exceptions.py` and the HTTP 400 raises in
`api.py`)

`confirm_user_data`, `ask_loan_amount`, `final_confirmation` and `chat`
signal a missing session with `HTTPException(400, "Session not found")`
while `calculate_eligibility` raises the typed `SessionNotFoundException`;
both are the spec's `SessionNotFound` and are collapsed into one variant
here.  `internalError` stands for the catch-all `HTTPException(500, ...)`
handlers. -/
inductive ApiError where
  | userNotFound (uid : String)
  | sessionNotFound (uid : String)
  | validationError (field : String) (value : ℚ) (reason : String)
  | internalError
deriving DecidableEq, Repr

/-- Whether an endpoint call succeeded. -/
def exceptOk {α : Type} : Except ApiError α → Bool
  | .ok _ => true
  | .error _ => false

/-- `LLMResponse` of `models.py`. -/
structure LLMResponse where
  message : String
  next_step : String
deriving DecidableEq, Repr

/-- `UserData` of `models.py`.  (`fetch_user_data` also passes an
`llm_message` kwarg, but the pydantic model declares no such field and
silently drops it, so it is not part of the wire response.) -/
structure UserData where
  user_id : String
  name : String
  monthly_income : ℚ
  monthly_expenses : ℚ
  existing_loan : ℚ
  ofac_check : Bool
  ofac_status : String
deriving DecidableEq, Repr

/-- `LoanEligibility` of `models.py`. -/
structure LoanEligibility where
  total_loan_eligibility : ℚ
  eligible_loan_amount : ℚ
  requested_amount : ℚ
  is_eligible : Bool
  message : String
deriving DecidableEq, Repr

/-! ### Workflow endpoints (`app/api.py`)

External collaborators are passed explicitly: `db` is
`excel_service.get_user_data`, `llm` is `llm_service.generate_response`
(prompt, context, conversation id), `screen` is
`ofac_service.check_sanctions` (name, user id).  Each endpoint returns its
response (or error) together with the updated store. -/

/-- Type of the spreadsheet lookup collaborator. -/
abbrev DB := String → Option UserRecord

/-- Type of the text-generation collaborator. -/
abbrev LLM := String → Ctx → String → String

/-- Type of the sanctions-screening collaborator as the workflow sees it. -/
abbrev Screen := String → String → Bool × String

/-- `settings.loan_term_years` (`config.py` line 60). -/
def loan_term_years : ℚ := 12

/-- `settings.loan_multiplier` (`config.py` line 59). -/
def loan_multiplier : ℚ := 5

/-- The hard-coded 10-million ceiling of `calculate_eligibility`
(`api.py` line 293). -/
def max_loan_amount : ℚ := 10000000

/-- Abstraction of the Python money rendering `f"$\x7bamount:,.2f\x7d"`: the
claims only depend on which figure appears in which message, so the model
renders the rational with `toString` instead of comma-grouped two-decimal
formatting. -/
def moneyFmt (q : ℚ) : String := toString q

/-- `greet_user` (`api.py` lines 90-125). -/
def greet_user (db : DB) (llm : LLM) (now : Nat) (store : Store)
    (user_id : String) : Except ApiError LLMResponse × Store :=
  match db user_id with
  | none => (.error (.userNotFound user_id), store)
  | some u =>
    let context : Ctx :=
      [("name", .str u.name), ("step", .str "greeting"),
       ("timestamp", .time now), ("user_id", .str user_id)]
    let message := llm
      ("Greet the user " ++ u.name ++ " and ask what type of loan they\x27re interested in")
      context user_id
    let store' := insertStore store user_id
      { step := "loan_type_selection", context := context, created_at := now }
    (.ok { message := message, next_step := "select_loan_type" }, store')

/-- The fixed compliance-decline message of `fetch_user_data`
(`api.py` line 157). -/
def compliance_decline_message (name : String) : String :=
  "Thank you for your interest in applying for a loan, " ++ name ++
  ". After reviewing your application, we regret to inform you that we are unable to proceed due to compliance requirements. Unfortunately, we cannot move forward with processing your request at this time.\n\nWe appreciate your understanding, and if you have any questions, please don\x27t hesitate to reach out. Thank you."

/-- `fetch_user_data` (`api.py` lines 127-205): the SelectLoanType
transition.  Note that it never consults the session store before writing —
it re-fetches the user record and creates or replaces the session. -/
def fetch_user_data (db : DB) (screen : Screen) (llm : LLM) (now : Nat)
    (store : Store) (user_id loan_type : String) :
    Except ApiError UserData × Store :=
  match db user_id with
  | none => (.error (.userNotFound user_id), store)
  | some u =>
    let sc := screen u.name user_id
    let context : Ctx :=
      [("name", .str u.name), ("monthly_income", .num u.monthly_income),
       ("monthly_expenses", .num u.monthly_expenses),
       ("existing_loan", .num (u.existing_loan.getD 0)),
       ("loan_type", .str loan_type), ("ofac_status", .str sc.2),
       ("ofac_clear", .flag sc.1), ("step", .str "data_verification"),
       ("timestamp", .time now), ("user_id", .str user_id)]
    if sc.1 = false then
      let message := compliance_decline_message u.name
      let store' := insertStore store user_id
        { step := "ofac_failed", loan_type := some loan_type,
          user_data := some u, context := context,
          llm_message := some message, process_complete := true,
          created_at := now }
      (.ok { user_id := user_id, name := u.name,
             monthly_income := u.monthly_income,
             monthly_expenses := u.monthly_expenses,
             existing_loan := u.existing_loan.getD 0,
             ofac_check := sc.1, ofac_status := sc.2 }, store')
    else
      let message := llm
        ("Mention they are interested in a " ++ loan_type ++
         " loan. Ask them to press the button to confirm if the data rendered in the UI is correct, without providing them any information. The button and data is rendered in the UI, you do not need to do any thing")
        context user_id
      let store' := insertStore store user_id
        { step := "data_confirmation", loan_type := some loan_type,
          user_data := some u, context := context,
          llm_message := some message, process_complete := false,
          created_at := now }
      (.ok { user_id := user_id, name := u.name,
             monthly_income := u.monthly_income,
             monthly_expenses := u.monthly_expenses,
             existing_loan := u.existing_loan.getD 0,
             ofac_check := sc.1, ofac_status := sc.2 }, store')

/-- `confirm_user_data` (`api.py` lines 207-237). -/
def confirm_user_data (llm : LLM) (now : Nat) (store : Store)
    (user_id : String) : Except ApiError LLMResponse × Store :=
  match lookupStore store user_id with
  | none => (.error (.sessionNotFound user_id), store)
  | some s =>
    if s.process_complete then
      (.ok { message := haltMsg s, next_step := "complete" }, store)
    else
      let context := ctxSet (ctxSet s.context "step" (.str "data_confirmation"))
        "timestamp" (.time now)
      let message := llm
        "Ask user to confirm their data and explain next step is to enter loan amount"
        context user_id
      let store' := insertStore store user_id
        { s with step := "loan_amount_input", context := context }
      (.ok { message := message, next_step := "enter_loan_amount" }, store')

/-- `ask_loan_amount` (`api.py` lines 239-268).  Note it updates only the
context, not `step`. -/
def ask_loan_amount (llm : LLM) (now : Nat) (store : Store)
    (user_id : String) : Except ApiError LLMResponse × Store :=
  match lookupStore store user_id with
  | none => (.error (.sessionNotFound user_id), store)
  | some s =>
    if s.process_complete then
      (.ok { message := haltMsg s, next_step := "complete" }, store)
    else
      let context := ctxSet (ctxSet s.context "step" (.str "loan_amount_input"))
        "timestamp" (.time now)
      let message := llm "Ask the user to enter their desired loan amount"
        context user_id
      let store' := insertStore store user_id { s with context := context }
      (.ok { message := message, next_step := "calculate_eligibility" }, store')

/-- `calculate_eligibility` (`api.py` lines 270-376).  A session created
without a `user_data` key (possible after `greet_user` alone) makes the
`session['user_data']` access of line 296 raise `KeyError`, which the
catch-all turns into an HTTP 500 — `internalError` here. -/
def calculate_eligibility (now : Nat) (store : Store) (user_id : String)
    (loan_amount : ℚ) : Except ApiError LoanEligibility × Store :=
  match lookupStore store user_id with
  | none => (.error (.sessionNotFound user_id), store)
  | some s =>
    if s.process_complete then
      (.ok { total_loan_eligibility := 0, eligible_loan_amount := 0,
             requested_amount := 0, is_eligible := false,
             message := haltMsg s }, store)
    else if loan_amount ≤ 0 then
      (.error (.validationError "loan_amount" loan_amount
        "Loan amount must be positive"), store)
    else if loan_amount > max_loan_amount then
      (.error (.validationError "loan_amount" loan_amount
        "Loan amount exceeds maximum limit"), store)
    else
      match s.user_data with
      | none => (.error .internalError, store)
      | some u =>
        let disposable_income := u.monthly_income - u.monthly_expenses
        let annual_disposable_income := disposable_income * loan_term_years
        let total_loan_eligibility := annual_disposable_income * loan_multiplier
        let existing_loan := u.existing_loan.getD 0
        let eligible_loan_amount := max 0 (total_loan_eligibility - existing_loan)
        let is_eligible : Bool :=
          decide (loan_amount ≤ eligible_loan_amount ∧
            eligible_loan_amount > 0 ∧ disposable_income > 0)
        let context := ctxSet (ctxSet (ctxSet (ctxSet (ctxSet (ctxSet (ctxSet
          (ctxSet s.context
            "step" (.str "eligibility_calculation"))
            "requested_amount" (.num loan_amount))
            "total_eligibility" (.num total_loan_eligibility))
            "eligible_amount" (.num eligible_loan_amount))
            "disposable_income" (.num disposable_income))
            "is_eligible" (.flag is_eligible))
            "timestamp" (.time now))
            "user_id" (.str user_id)
        let message :=
          if is_eligible then
            "Congratulations! You are eligible for a loan of $" ++
              moneyFmt loan_amount
          else if eligible_loan_amount ≤ 0 then
            "Unfortunately, you are not eligible for a loan at this time due to insufficient disposable income."
          else
            "You are eligible for a maximum loan amount of $" ++
              moneyFmt eligible_loan_amount ++
              ", but your requested amount of $" ++ moneyFmt loan_amount ++
              " exceeds this limit."
        let store' := insertStore store user_id
          { s with loan_amount := some loan_amount,
                   eligibility := some is_eligible,
                   eligible_amount := some eligible_loan_amount,
                   total_eligibility := some total_loan_eligibility,
                   context := context,
                   calculation_timestamp := some now }
        (.ok { total_loan_eligibility := total_loan_eligibility,
               eligible_loan_amount := eligible_loan_amount,
               requested_amount := loan_amount, is_eligible := is_eligible,
               message := message }, store')

/-- The context built by `final_confirmation` (`api.py` lines 396-402). -/
def final_confirmation_ctx (s : Session) (now : Nat) : Ctx :=
  ctxSet (ctxSet (ctxSet (ctxSet s.context
    "step" (.str "final_confirmation"))
    "amount" (.num (s.loan_amount.getD 0)))
    "is_eligible" (.flag (s.eligibility.getD false)))
    "timestamp" (.time now)

/-- The fixed approval message of `final_confirmation` (`api.py` line 405). -/
def approval_message : String :=
  "Congratulations you have In-Principal approval for the amount. The amount will be released post execution of the Loan Agreement. Request you to review and sign the loan agreement shared to you."

/-- `final_confirmation` (`api.py` lines 378-416). -/
def final_confirmation (llm : LLM) (now : Nat) (store : Store)
    (user_id : String) : Except ApiError LLMResponse × Store :=
  match lookupStore store user_id with
  | none => (.error (.sessionNotFound user_id), store)
  | some s =>
    if s.process_complete then
      (.ok { message := haltMsg s, next_step := "complete" }, store)
    else
      let message :=
        if s.eligibility.getD false then approval_message
        else llm "Generate a denial message for the loan application"
          (final_confirmation_ctx s now) user_id
      (.ok { message := message, next_step := "complete" },
        eraseStore store user_id)

/-- `chat` (`api.py` lines 418-437).  It builds a fresh context but never
writes it back: the store is unchanged on every successful path. -/
def chat (llm : LLM) (now : Nat) (store : Store) (user_id message : String) :
    Except ApiError String × Store :=
  match lookupStore store user_id with
  | none => (.error (.sessionNotFound user_id), store)
  | some s =>
    if s.process_complete then (.ok (haltMsg s), store)
    else
      let context := ctxSet (ctxSet s.context "step" (.str "chat"))
        "timestamp" (.time now)
      (.ok (llm message context user_id), store)

/-! ### Spec-side eligibility (for the refinement claim)

`spec_eligibility` transcribes §4.1 of the specification word for word
(variant (b): `disposable_income * term_years * multiplier`), including the
spec's `requested_amount > 0` conjunct that the code leaves to its earlier
validation step.  It is compared against `calculate_eligibility` above. -/

/-- The verdict triple named by the spec. -/
structure SpecEligibility where
  total_eligibility : ℚ
  eligible_amount : ℚ
  is_eligible : Bool
deriving DecidableEq, Repr

/-- EligibilityCalculator contract of spec §4.1, written from the spec's
formulas, not from the code. -/
def spec_eligibility (monthly_income monthly_expenses existing_loan_balance
    requested_amount term_years multiplier : ℚ) : SpecEligibility :=
  let disposable_income := monthly_income - monthly_expenses
  let total := disposable_income * term_years * multiplier
  let eligible := max 0 (total - existing_loan_balance)
  { total_eligibility := total
    eligible_amount := eligible
    is_eligible := decide (requested_amount > 0 ∧ requested_amount ≤ eligible ∧
      eligible > 0 ∧ disposable_income > 0) }

/-! ### Transition sequences

A uniform dispatcher over the five transitions that require an existing
session, used to state the temporal claims about halted sessions. -/

/-- The five session-requiring transitions. -/
inductive Tr where
  | confirmData
  | requestLoanAmount
  | calcEligibility (amount : ℚ)
  | finalConfirm
  | chatMsg (m : String)
deriving DecidableEq, Repr

/-- Invoke one transition, returning the message of a successful response
(`none` on a typed failure) and the updated store. -/
def applyTr (llm : LLM) (now : Nat) (uid : String) (t : Tr) (store : Store) :
    Option String × Store :=
  match t with
  | .confirmData =>
    let r := confirm_user_data llm now store uid
    ((match r.1 with | .ok v => some v.message | .error _ => none), r.2)
  | .requestLoanAmount =>
    let r := ask_loan_amount llm now store uid
    ((match r.1 with | .ok v => some v.message | .error _ => none), r.2)
  | .calcEligibility a =>
    let r := calculate_eligibility now store uid a
    ((match r.1 with | .ok v => some v.message | .error _ => none), r.2)
  | .finalConfirm =>
    let r := final_confirmation llm now store uid
    ((match r.1 with | .ok v => some v.message | .error _ => none), r.2)
  | .chatMsg m =>
    let r := chat llm now store uid m
    ((match r.1 with | .ok v => some v | .error _ => none), r.2)

/-- Run a sequence of transitions, collecting the returned messages. -/
def runTrs (llm : LLM) (now : Nat) (uid : String) :
    List Tr → Store → List (Option String) × Store
  | [], store => ([], store)
  | t :: ts, store =>
    let r := applyTr llm now uid t store
    let rest := runTrs llm now uid ts r.2
    (r.1 :: rest.1, rest.2)

/-- Position of a session `step` value in the fixed forward sequence
(`ofac_failed` is the halted variant of the same position as
`data_confirmation`; steps the code never stores map to 0). -/
def step_index : String → Nat
  | "loan_type_selection" => 1
  | "data_confirmation" => 2
  | "ofac_failed" => 2
  | "loan_amount_input" => 3
  | _ => 0

/-! ### Store lemmas -/

theorem lookupStore_eraseStore_self (store : Store) (uid : String) :
    lookupStore (eraseStore store uid) uid = none := by
  induction store with
  | nil => rfl
  | cons p rest ih =>
    by_cases h : p.1 = uid
    · simp [eraseStore, lookupStore, h, ih]
    · simp [eraseStore, lookupStore, List.find?, h, ih]

theorem lookupStore_insertStore_self (store : Store) (uid : String)
    (s : Session) : lookupStore (insertStore store uid s) uid = some s := by
  simp [insertStore, lookupStore, List.find?]

theorem step_index_le_three (str : String) : step_index str ≤ 3 := by
  unfold step_index
  split <;> omega

/-- Any of the five session-requiring transitions, invoked on a session whose
`process_complete` flag is set, returns exactly the stored halt message and
leaves the store untouched. -/
theorem applyTr_halted (llm : LLM) (now : Nat) (uid : String) (t : Tr)
    (store : Store) (s : Session) (hs : lookupStore store uid = some s)
    (hc : s.process_complete = true) :
    applyTr llm now uid t store = (some (haltMsg s), store) := by
  cases t <;>
    simp [applyTr, confirm_user_data, ask_loan_amount, calculate_eligibility,
      final_confirmation, chat, hs, hc]

/-! ### Demo fixtures used by witnesses and counterexamples -/

/-- The spreadsheet row of end-to-end scenario A/B. -/
def johnRecord : UserRecord :=
  { name := "John Doe", monthly_income := 8000, monthly_expenses := 3000,
    existing_loan := some 20000 }

/-- A one-row spreadsheet lookup. -/
def db1 : DB := fun uid => if uid = "USR001" then some johnRecord else none

/-- A constant text generator. -/
def llmK : LLM := fun _ _ _ => "generated reply"

/-- A screener that always clears. -/
def screenClean : Screen :=
  fun _ _ => (true, "OFAC sanctions check passed - no matches found")

/-- A screener that always reports a sanctions hit. -/
def screenHit : Screen :=
  fun _ _ => (false, "Exact match found on sanctions list: Sanctioned Person")

/-- A halted session, as left behind by a failed screening. -/
def demoHaltedSession : Session :=
  { step := "ofac_failed", context := [], created_at := 0,
    llm_message := some "compliance decline", process_complete := true }

/-- A store holding only the halted session. -/
def demoHaltedStore : Store := [("USR001", demoHaltedSession)]

/-- A non-halted session that has been through data confirmation. -/
def demoActiveSession : Session :=
  { step := "loan_amount_input", context := [], created_at := 0,
    loan_type := some "home", user_data := some johnRecord,
    llm_message := some "confirm prompt", process_complete := false }

/-- A store holding only the active session. -/
def demoActiveStore : Store := [("USR001", demoActiveSession)]

/-! ### Claims -/

/-- C3: for every session with `process_complete` set by a failed screening,
each of the five subsequent transitions (ConfirmData, RequestLoanAmount,
CalculateEligibility, FinalConfirmation, Chat) returns exactly the stored
halt message — identical across all five, in any order and any number of
repetitions — and leaves the session store unchanged (in particular the
session is not deleted). -/
theorem halted_session_replays_halt_message (llm : LLM) (now : Nat)
    (uid : String) (store : Store) (s : Session) (trs : List Tr)
    (hs : lookupStore store uid = some s) (hc : s.process_complete = true) :
    runTrs llm now uid trs store =
      (trs.map (fun _ => some (haltMsg s)), store) := by
  induction trs with
  | nil => rfl
  | cons t ts ih =>
    simp [runTrs, applyTr_halted llm now uid t store s hs hc, ih]

/-- Witness for C3: all five transitions invoked on a concrete halted
session, twice over and out of order, each time returning the stored halt
message, with the store intact. -/
theorem halted_session_replays_halt_message_witness :
    lookupStore demoHaltedStore "USR001" = some demoHaltedSession ∧
    demoHaltedSession.process_complete = true ∧
    runTrs llmK 0 "USR001"
        [.confirmData, .requestLoanAmount, .calcEligibility 250000,
         .finalConfirm, .chatMsg "status?", .finalConfirm, .confirmData]
        demoHaltedStore =
      ([some "compliance decline", some "compliance decline",
        some "compliance decline", some "compliance decline",
        some "compliance decline", some "compliance decline",
        some "compliance decline"], demoHaltedStore) :=
  ⟨rfl, rfl,
    halted_session_replays_halt_message llmK 0 "USR001" demoHaltedStore
      demoHaltedSession
      [.confirmData, .requestLoanAmount, .calcEligibility 250000,
       .finalConfirm, .chatMsg "status?", .finalConfirm, .confirmData]
      rfl rfl⟩

/-- C2 (amended): step ordering is not enforced beyond session existence.
What does hold of the five session-requiring transitions: a halted session
is frozen (the transition replays the halt message and leaves the store
unchanged), and the stored `step` never moves to a smaller position of the
fixed sequence.  The original claim's no-skipping part and its
applies-to-SelectLoanType part are refuted by
`step_ordering_not_enforced`. -/
theorem step_monotone_and_halted_frozen (llm : LLM) (now : Nat)
    (uid : String) (t : Tr) (store : Store) (s : Session)
    (hs : lookupStore store uid = some s) :
    (s.process_complete = true →
      applyTr llm now uid t store = (some (haltMsg s), store)) ∧
    ∀ s', lookupStore (applyTr llm now uid t store).2 uid = some s' →
      step_index s.step ≤ step_index s'.step := by
  refine ⟨fun hc => applyTr_halted llm now uid t store s hs hc, ?_⟩
  intro s' hs'
  by_cases hc : s.process_complete = true
  · rw [applyTr_halted llm now uid t store s hs hc, hs] at hs'
    cases hs'
    exact le_refl _
  · cases t with
    | confirmData =>
      simp [applyTr, confirm_user_data, hs, hc,
        lookupStore_insertStore_self] at hs'
      subst hs'
      exact step_index_le_three s.step
    | requestLoanAmount =>
      simp [applyTr, ask_loan_amount, hs, hc,
        lookupStore_insertStore_self] at hs'
      subst hs'
      exact le_refl _
    | calcEligibility a =>
      by_cases h1 : a ≤ 0
      · simp [applyTr, calculate_eligibility, hs, hc, h1] at hs'
        subst hs'
        exact le_refl _
      · by_cases h2 : a > max_loan_amount
        · simp [applyTr, calculate_eligibility, hs, hc, h1, h2] at hs'
          subst hs'
          exact le_refl _
        · cases hu : s.user_data with
          | none =>
            simp [applyTr, calculate_eligibility, hs, hc, h1, h2, hu] at hs'
            subst hs'
            exact le_refl _
          | some u =>
            simp [applyTr, calculate_eligibility, hs, hc, h1, h2, hu,
              lookupStore_insertStore_self] at hs'
            subst hs'
            exact le_refl _
    | finalConfirm =>
      simp [applyTr, final_confirmation, hs, hc,
        lookupStore_eraseStore_self] at hs'
    | chatMsg m =>
      simp [applyTr, chat, hs, hc] at hs'
      subst hs'
      exact le_refl _

/-- Witness for C2's amended theorem at a concrete halted store. -/
theorem step_monotone_and_halted_frozen_witness :
    lookupStore demoHaltedStore "USR001" = some demoHaltedSession ∧
    ((demoHaltedSession.process_complete = true →
        applyTr llmK 0 "USR001" .confirmData demoHaltedStore =
          (some (haltMsg demoHaltedSession), demoHaltedStore)) ∧
      ∀ s', lookupStore
          (applyTr llmK 0 "USR001" .confirmData demoHaltedStore).2 "USR001" =
            some s' →
        step_index demoHaltedSession.step ≤ step_index s'.step) :=
  ⟨rfl, step_monotone_and_halted_frozen llmK 0 "USR001" .confirmData
    demoHaltedStore demoHaltedSession rfl⟩

/-- Concrete stores of the C2 counterexample run:
Greet, then ConfirmData (skipping SelectLoanType), then SelectLoanType. -/
def c2Store1 : Store := (greet_user db1 llmK 0 [] "USR001").2

/-- Store after ConfirmData straight after Greet. -/
def c2Store2 : Store := (confirm_user_data llmK 1 c2Store1 "USR001").2

/-- Store after re-invoking SelectLoanType from the loan-amount step. -/
def c2Store3 : Store :=
  (fetch_user_data db1 screenClean llmK 2 c2Store2 "USR001" "home").2

/-- Counterexample to C2 as stated: ConfirmData succeeds straight after
Greet, jumping the step from `loan_type_selection` to `loan_amount_input`
without the data-fetch step ever running (no SessionNotFound), and a
subsequent SelectLoanType moves the step backward to `data_confirmation`. -/
theorem step_ordering_not_enforced :
    (lookupStore c2Store1 "USR001").map Session.step =
      some "loan_type_selection" ∧
    exceptOk (confirm_user_data llmK 1 c2Store1 "USR001").1 = true ∧
    (lookupStore c2Store2 "USR001").map Session.step =
      some "loan_amount_input" ∧
    (lookupStore c2Store3 "USR001").map Session.step =
      some "data_confirmation" ∧
    step_index "data_confirmation" < step_index "loan_amount_input" :=
  ⟨rfl, rfl, rfl, rfl, by decide⟩

/-- C1 (amended): each of the five transitions that consult the session
store (ConfirmData, RequestLoanAmount, CalculateEligibility,
FinalConfirmation, Chat) fails with SessionNotFound — and in no other way —
when the applicant has no session.  SelectLoanType is exempt besides Greet:
it never reads the session store (see
`fetch_user_data_succeeds_without_session`). -/
theorem no_session_gives_session_not_found (llm : LLM) (now : Nat)
    (store : Store) (uid : String) (a : ℚ) (m : String)
    (h : lookupStore store uid = none) :
    (confirm_user_data llm now store uid).1 =
      .error (.sessionNotFound uid) ∧
    (ask_loan_amount llm now store uid).1 = .error (.sessionNotFound uid) ∧
    (calculate_eligibility now store uid a).1 =
      .error (.sessionNotFound uid) ∧
    (final_confirmation llm now store uid).1 =
      .error (.sessionNotFound uid) ∧
    (chat llm now store uid m).1 = .error (.sessionNotFound uid) := by
  simp [confirm_user_data, ask_loan_amount, calculate_eligibility,
    final_confirmation, chat, h]

/-- Witness for C1's amended theorem on the empty store. -/
theorem no_session_gives_session_not_found_witness :
    lookupStore ([] : Store) "USR001" = none ∧
    ((confirm_user_data llmK 0 [] "USR001").1 =
        .error (.sessionNotFound "USR001") ∧
      (ask_loan_amount llmK 0 [] "USR001").1 =
        .error (.sessionNotFound "USR001") ∧
      (calculate_eligibility 0 [] "USR001" 250000).1 =
        .error (.sessionNotFound "USR001") ∧
      (final_confirmation llmK 0 [] "USR001").1 =
        .error (.sessionNotFound "USR001") ∧
      (chat llmK 0 [] "USR001" "hello").1 =
        .error (.sessionNotFound "USR001")) :=
  ⟨rfl, no_session_gives_session_not_found llmK 0 [] "USR001" 250000 "hello"
    rfl⟩

/-- Counterexample to C1 as stated: SelectLoanType (`fetch_user_data`)
invoked for an applicant with no session does not fail with
SessionNotFound — it succeeds outright, returning the freshly fetched user
data. -/
theorem fetch_user_data_succeeds_without_session :
    lookupStore ([] : Store) "USR001" = none ∧
    (fetch_user_data db1 screenClean llmK 0 [] "USR001" "home").1 =
      .ok { user_id := "USR001", name := "John Doe", monthly_income := 8000,
            monthly_expenses := 3000, existing_loan := 20000,
            ofac_check := true,
            ofac_status := "OFAC sanctions check passed - no matches found" } :=
  ⟨rfl, rfl⟩

/-- C9: for every non-halted session, FinalConfirmation succeeds and deletes
the session (its store update is exactly the deletion, whichever branch the
eligibility flag selects), so the session no longer exists and a subsequent
Chat fails with SessionNotFound. -/
theorem final_confirmation_deletes_session (llm : LLM) (now : Nat)
    (store : Store) (uid m : String) (s : Session)
    (hs : lookupStore store uid = some s) (hc : s.process_complete = false) :
    exceptOk (final_confirmation llm now store uid).1 = true ∧
    (final_confirmation llm now store uid).2 = eraseStore store uid ∧
    lookupStore (final_confirmation llm now store uid).2 uid = none ∧
    (chat llm now (final_confirmation llm now store uid).2 uid m).1 =
      .error (.sessionNotFound uid) := by
  simp [final_confirmation, chat, hs, hc, exceptOk,
    lookupStore_eraseStore_self]

/-- Witness for C9 on a concrete confirmed-but-uncalculated session. -/
theorem final_confirmation_deletes_session_witness :
    lookupStore demoActiveStore "USR001" = some demoActiveSession ∧
    demoActiveSession.process_complete = false ∧
    (exceptOk (final_confirmation llmK 0 demoActiveStore "USR001").1 = true ∧
      (final_confirmation llmK 0 demoActiveStore "USR001").2 =
        eraseStore demoActiveStore "USR001" ∧
      lookupStore (final_confirmation llmK 0 demoActiveStore "USR001").2
          "USR001" = none ∧
      (chat llmK 0 (final_confirmation llmK 0 demoActiveStore "USR001").2
          "USR001" "hello").1 = .error (.sessionNotFound "USR001")) :=
  ⟨rfl, rfl, final_confirmation_deletes_session llmK 0 demoActiveStore
    "USR001" "hello" demoActiveSession rfl rfl⟩

/-- C10: a non-halted session on which CalculateEligibility never ran (no
stored eligibility figures) does not make FinalConfirmation fail: the
eligibility flag defaults to false and the loan amount to 0, the
not-eligible branch asks the generator for a denial message, and the session
is deleted. -/
theorem final_confirmation_defaults_to_denial (llm : LLM) (now : Nat)
    (store : Store) (uid : String) (s : Session)
    (hs : lookupStore store uid = some s) (hc : s.process_complete = false)
    (he : s.eligibility = none) (hl : s.loan_amount = none) :
    final_confirmation llm now store uid =
      (.ok { message := llm "Generate a denial message for the loan application"
               (final_confirmation_ctx s now) uid,
             next_step := "complete" }, eraseStore store uid) ∧
    final_confirmation_ctx s now =
      ctxSet (ctxSet (ctxSet (ctxSet s.context
        "step" (.str "final_confirmation"))
        "amount" (.num 0))
        "is_eligible" (.flag false))
        "timestamp" (.time now) := by
  constructor
  · simp [final_confirmation, hs, hc, he]
  · simp [final_confirmation_ctx, he, hl]

/-- Witness for C10 on a concrete session with no eligibility figures. -/
theorem final_confirmation_defaults_to_denial_witness :
    lookupStore demoActiveStore "USR001" = some demoActiveSession ∧
    demoActiveSession.process_complete = false ∧
    demoActiveSession.eligibility = none ∧
    demoActiveSession.loan_amount = none ∧
    (final_confirmation llmK 3 demoActiveStore "USR001" =
      (.ok { message := llmK "Generate a denial message for the loan application"
               (final_confirmation_ctx demoActiveSession 3) "USR001",
             next_step := "complete" },
        eraseStore demoActiveStore "USR001") ∧
      final_confirmation_ctx demoActiveSession 3 =
        ctxSet (ctxSet (ctxSet (ctxSet demoActiveSession.context
          "step" (.str "final_confirmation"))
          "amount" (.num 0))
          "is_eligible" (.flag false))
          "timestamp" (.time 3)) :=
  ⟨rfl, rfl, rfl, rfl, final_confirmation_defaults_to_denial llmK 3
    demoActiveStore "USR001" demoActiveSession rfl rfl rfl rfl⟩

/-- The spec's verdict for a user record and requested amount, at the
configured term and multiplier. -/
def spec_verdict (u : UserRecord) (r : ℚ) : SpecEligibility :=
  spec_eligibility u.monthly_income u.monthly_expenses (u.existing_loan.getD 0)
    r loan_term_years loan_multiplier

/-- C4: for every non-halted session holding a financial snapshot and every
requested amount that passes validation, CalculateEligibility returns
exactly the spec §4.1 verdict — total eligibility
`(income - expenses) * term_years * multiplier`, eligible amount
`max 0 (total - existing_loan)`, the spec's four-conjunct eligibility
boolean (the code omits the `requested > 0` conjunct, but validation already
guarantees it) — and the three-way message classification. -/
theorem calculate_eligibility_matches_spec (now : Nat) (store : Store)
    (uid : String) (s : Session) (u : UserRecord) (r : ℚ)
    (hs : lookupStore store uid = some s) (hc : s.process_complete = false)
    (hu : s.user_data = some u) (h1 : 0 < r) (h2 : r ≤ max_loan_amount) :
    (calculate_eligibility now store uid r).1 =
      .ok { total_loan_eligibility := (spec_verdict u r).total_eligibility,
            eligible_loan_amount := (spec_verdict u r).eligible_amount,
            requested_amount := r,
            is_eligible := (spec_verdict u r).is_eligible,
            message :=
              if (spec_verdict u r).is_eligible then
                "Congratulations! You are eligible for a loan of $" ++
                  moneyFmt r
              else if (spec_verdict u r).eligible_amount ≤ 0 then
                "Unfortunately, you are not eligible for a loan at this time due to insufficient disposable income."
              else
                "You are eligible for a maximum loan amount of $" ++
                  moneyFmt ((spec_verdict u r).eligible_amount) ++
                  ", but your requested amount of $" ++ moneyFmt r ++
                  " exceeds this limit." } := by
  have hb : ∀ E D : ℚ, decide (r ≤ E ∧ E > 0 ∧ D > 0) =
      decide (r > 0 ∧ r ≤ E ∧ E > 0 ∧ D > 0) := by
    intro E D
    rw [decide_eq_decide]
    simp [h1]
  simp only [calculate_eligibility, spec_verdict, spec_eligibility, hs, hc,
    hu]
  rw [if_neg (not_le.mpr h1), if_neg (not_lt.mpr h2)]
  simp only [hb]
  rfl

/-- Witness for C4: end-to-end scenarios A and B — income 8000, expenses
3000, existing loan 20000, term 12, multiplier 5 gives total 300000 and
eligible amount 280000; requesting 250000 is approved, requesting 290000 is
rejected with the amount-exceeds-limit classification. -/
theorem calculate_eligibility_matches_spec_witness :
    lookupStore demoActiveStore "USR001" = some demoActiveSession ∧
    demoActiveSession.process_complete = false ∧
    demoActiveSession.user_data = some johnRecord ∧
    (0 : ℚ) < 250000 ∧ (250000 : ℚ) ≤ max_loan_amount ∧
    (0 : ℚ) < 290000 ∧ (290000 : ℚ) ≤ max_loan_amount ∧
    spec_verdict johnRecord 250000 =
      { total_eligibility := 300000, eligible_amount := 280000,
        is_eligible := true } ∧
    spec_verdict johnRecord 290000 =
      { total_eligibility := 300000, eligible_amount := 280000,
        is_eligible := false } ∧
    (calculate_eligibility 7 demoActiveStore "USR001" 250000).1 =
      .ok { total_loan_eligibility := 300000,
            eligible_loan_amount := 280000, requested_amount := 250000,
            is_eligible := true,
            message := "Congratulations! You are eligible for a loan of $" ++
              moneyFmt 250000 } ∧
    (calculate_eligibility 7 demoActiveStore "USR001" 290000).1 =
      .ok { total_loan_eligibility := 300000,
            eligible_loan_amount := 280000, requested_amount := 290000,
            is_eligible := false,
            message := "You are eligible for a maximum loan amount of $" ++
              moneyFmt 280000 ++ ", but your requested amount of $" ++
              moneyFmt 290000 ++ " exceeds this limit." } := by
  have hA : spec_verdict johnRecord 250000 =
      { total_eligibility := 300000, eligible_amount := 280000,
        is_eligible := true } := by
    norm_num [spec_verdict, spec_eligibility, johnRecord, max_def,
      loan_term_years, loan_multiplier]
  have hB : spec_verdict johnRecord 290000 =
      { total_eligibility := 300000, eligible_amount := 280000,
        is_eligible := false } := by
    norm_num [spec_verdict, spec_eligibility, johnRecord, max_def,
      loan_term_years, loan_multiplier]
  refine ⟨rfl, rfl, rfl, by norm_num, by norm_num [max_loan_amount],
    by norm_num, by norm_num [max_loan_amount], hA, hB, ?_, ?_⟩
  · rw [calculate_eligibility_matches_spec 7 demoActiveStore "USR001"
      demoActiveSession johnRecord 250000 rfl rfl rfl (by norm_num)
      (by norm_num [max_loan_amount]), hA]
    norm_num
  · rw [calculate_eligibility_matches_spec 7 demoActiveStore "USR001"
      demoActiveSession johnRecord 290000 rfl rfl rfl (by norm_num)
      (by norm_num [max_loan_amount]), hB]
    norm_num

/-- C6 (amended to non-halted sessions): for every non-halted session and
every requested amount that is non-positive or above the 10-million ceiling,
CalculateEligibility fails with a ValidationError carrying the offending
field, value and reason, and leaves the store — hence the session's stored
figures — unchanged.  For halted sessions the halt short-circuit fires
before validation (see `halted_session_skips_validation`). -/
theorem calculate_eligibility_validation (now : Nat) (store : Store)
    (uid : String) (s : Session) (r : ℚ)
    (hs : lookupStore store uid = some s) (hc : s.process_complete = false)
    (hr : r ≤ 0 ∨ max_loan_amount < r) :
    calculate_eligibility now store uid r =
      (.error (.validationError "loan_amount" r
        (if r ≤ 0 then "Loan amount must be positive"
         else "Loan amount exceeds maximum limit")), store) := by
  rcases hr with h | h
  · simp [calculate_eligibility, hs, hc, h]
  · have h1 : ¬ r ≤ 0 := by
      have : (0 : ℚ) < max_loan_amount := by norm_num [max_loan_amount]
      exact not_le.mpr (this.trans h)
    simp [calculate_eligibility, hs, hc, h1, h]

/-- Witness for C6's amended theorem: a negative and an over-ceiling amount
on a concrete non-halted session. -/
theorem calculate_eligibility_validation_witness :
    lookupStore demoActiveStore "USR001" = some demoActiveSession ∧
    demoActiveSession.process_complete = false ∧
    ((-5 : ℚ) ≤ 0 ∨ max_loan_amount < (-5 : ℚ)) ∧
    ((20000000 : ℚ) ≤ 0 ∨ max_loan_amount < (20000000 : ℚ)) ∧
    calculate_eligibility 0 demoActiveStore "USR001" (-5) =
      (.error (.validationError "loan_amount" (-5)
        (if (-5 : ℚ) ≤ 0 then "Loan amount must be positive"
         else "Loan amount exceeds maximum limit")), demoActiveStore) ∧
    calculate_eligibility 0 demoActiveStore "USR001" 20000000 =
      (.error (.validationError "loan_amount" 20000000
        (if (20000000 : ℚ) ≤ 0 then "Loan amount must be positive"
         else "Loan amount exceeds maximum limit")), demoActiveStore) :=
  ⟨rfl, rfl, Or.inl (by norm_num), Or.inr (by norm_num [max_loan_amount]),
    calculate_eligibility_validation 0 demoActiveStore "USR001"
      demoActiveSession (-5) rfl rfl (Or.inl (by norm_num)),
    calculate_eligibility_validation 0 demoActiveStore "USR001"
      demoActiveSession 20000000 rfl rfl
      (Or.inr (by norm_num [max_loan_amount]))⟩

/-- Counterexample to C6 as stated ("for every session"): on a halted
session an invalid amount does not raise a ValidationError — the halt
short-circuit returns a zeroed success payload carrying the halt message. -/
theorem halted_session_skips_validation :
    lookupStore demoHaltedStore "USR001" = some demoHaltedSession ∧
    ((-5 : ℚ) ≤ 0) ∧
    calculate_eligibility 0 demoHaltedStore "USR001" (-5) =
      (.ok { total_loan_eligibility := 0, eligible_loan_amount := 0,
             requested_amount := 0, is_eligible := false,
             message := "compliance decline" }, demoHaltedStore) :=
  ⟨rfl, by norm_num, rfl⟩

/-- A simulation-mode service (no real OFAC API configured — the
`config.py` defaults). -/
def cfgSim : OFACConfig := { api_configured := false }

/-- A call whose random draw stays below both false-positive bands. -/
def callClean : CallEnv :=
  { rand_val := 0, api_outcome := .timeout, raised_fault := false }

/-- A call whose random draw lands in the top false-positive band. -/
def callHot : CallEnv :=
  { rand_val := 97 / 100, api_outcome := .timeout, raised_fault := false }

/-- A call during which an exception is raised inside the screener. -/
def callFault : CallEnv :=
  { rand_val := 0, api_outcome := .timeout, raised_fault := true }

/-- C5 (amended): two names that the code's normalization actually
identifies — trim, case-fold, and a single left-to-right pass replacing each
double space by one space — hit the same cache entry, so screening both
within the cache TTL yields identical verdicts (result and status), whatever
each call's random draw or API outcome is.  Full collapse of internal
whitespace does not hold; see `whitespace_variants_diverge`. -/
theorem normalized_equal_names_share_cached_verdict (cfg : OFACConfig)
    (env1 env2 : CallEnv) (t1 t2 : Nat) (a b : String)
    (hf1 : env1.raised_fault = false) (hf2 : env2.raised_fault = false)
    (ha : ¬ pyStrip a = "") (hb : ¬ pyStrip b = "")
    (hnorm : normalize_name a = normalize_name b)
    (httl : t2 - t1 < cache_ttl) :
    (check_sanctions cfg env2 t2 (check_sanctions cfg env1 t1 [] a).2.2 b).1 =
      (check_sanctions cfg env1 t1 [] a).1 ∧
    (check_sanctions cfg env2 t2 (check_sanctions cfg env1 t1 [] a).2.2
        b).2.1 =
      (check_sanctions cfg env1 t1 [] a).2.1 := by
  have h1 : check_sanctions cfg env1 t1 [] a =
      (((if cfg.api_configured then check_real_ofac_api env1.api_outcome
          else simulate_ofac_check env1.rand_val a)).1,
        ((if cfg.api_configured then check_real_ofac_api env1.api_outcome
          else simulate_ofac_check env1.rand_val a)).2,
        [(normalize_name b,
          ⟨((if cfg.api_configured then check_real_ofac_api env1.api_outcome
              else simulate_ofac_check env1.rand_val a)).1,
            ((if cfg.api_configured then check_real_ofac_api env1.api_outcome
              else simulate_ofac_check env1.rand_val a)).2, t1⟩)]) := by
    simp [check_sanctions, hf1, ha, hnorm, get_cached_result, cache_result]
  rw [h1]
  have hvalid : is_cache_valid t2
      ⟨((if cfg.api_configured then check_real_ofac_api env1.api_outcome
          else simulate_ofac_check env1.rand_val a)).1,
        ((if cfg.api_configured then check_real_ofac_api env1.api_outcome
          else simulate_ofac_check env1.rand_val a)).2, t1⟩ = true := by
    simpa [is_cache_valid] using httl
  constructor <;>
    simp [check_sanctions, hf2, hb, get_cached_result, hvalid]

/-- Witness for C5's amended theorem: the pair of spellings
`"Jane Smith"` and `" JANE  smith"` (case, edge whitespace and one internal
double space) normalize identically, and the second screen replays the
first's verdict even though its random draw lands in a false-positive
band. -/
theorem normalized_equal_names_share_cached_verdict_witness :
    callClean.raised_fault = false ∧ callHot.raised_fault = false ∧
    ¬ pyStrip "Jane Smith" = "" ∧ ¬ pyStrip " JANE  smith" = "" ∧
    normalize_name "Jane Smith" = normalize_name " JANE  smith" ∧
    10 - 0 < cache_ttl ∧
    ((check_sanctions cfgSim callHot 10
        (check_sanctions cfgSim callClean 0 [] "Jane Smith").2.2
        " JANE  smith").1 =
      (check_sanctions cfgSim callClean 0 [] "Jane Smith").1 ∧
    (check_sanctions cfgSim callHot 10
        (check_sanctions cfgSim callClean 0 [] "Jane Smith").2.2
        " JANE  smith").2.1 =
      (check_sanctions cfgSim callClean 0 [] "Jane Smith").2.1) :=
  ⟨rfl, rfl, by decide, by decide, by decide, by decide,
    normalized_equal_names_share_cached_verdict cfgSim callClean callHot 0 10
      "Jane Smith" " JANE  smith" rfl rfl (by decide) (by decide) (by decide)
      (by decide)⟩

/-- Counterexample to C5 as stated: `"Jane Smith"` and `"  jane   smith "`
differ only in case and whitespace, yet the code's single-pass double-space
replacement normalizes them to different strings, they occupy different
cache entries, and screening the second within the TTL of the first can
return the opposite verdict (here: first screen clears, second screen draws
a simulated false positive). -/
theorem whitespace_variants_diverge :
    normalize_name "Jane Smith" ≠ normalize_name "  jane   smith " ∧
    (check_sanctions cfgSim callClean 0 [] "Jane Smith").1 = true ∧
    (check_sanctions cfgSim callHot 1
      (check_sanctions cfgSim callClean 0 [] "Jane Smith").2.2
      "  jane   smith ").1 = false := by
  refine ⟨by decide, ?_, ?_⟩
  · show (random_gate 0).1 = true
    norm_num [random_gate]
  · show (random_gate (97 / 100)).1 = false
    norm_num [random_gate]

/-- C7 (amended): a name whose normalized form exactly equals a denylist
entry's normalized form fails with the reason citing that exact match; a
name with no exact denylist match whose normalized form shares at least two
whitespace-delimited tokens with some denylist entry fails with a
"potential partial match - manual review required" reason (citing some
entry).  An exact match preempts the fuzzy reason; see
`exact_match_preempts_fuzzy_status`. -/
theorem denylist_matching (name : String) (r : ℚ) :
    (∀ e ∈ sanctioned_names, normalize_name name = normalize_name e →
      simulate_ofac_check r name = (false, exact_match_status e)) ∧
    ((∀ e ∈ sanctioned_names, normalize_name name ≠ normalize_name e) →
      (∃ e ∈ sanctioned_names,
        2 ≤ shared_token_count (normalize_name name) (normalize_name e)) →
      (simulate_ofac_check r name).1 = false ∧
      ∃ e ∈ sanctioned_names,
        (simulate_ofac_check r name).2 = fuzzy_match_status e) := by
  constructor
  · intro e he hnorm
    fin_cases he <;>
      · simp only [simulate_ofac_check]
        rw [hnorm]
        rfl
  · intro hno hshare
    have hex : exact_match_entry (normalize_name name) = none := by
      rw [exact_match_entry, List.find?_eq_none]
      intro x hx
      simpa using hno x hx
    have hfz : (fuzzy_match_entry (normalize_name name)).isSome := by
      rw [fuzzy_match_entry, List.find?_isSome]
      obtain ⟨e, he, h2⟩ := hshare
      exact ⟨e, he, by simpa using h2⟩
    obtain ⟨e', he'⟩ := Option.isSome_iff_exists.mp hfz
    have hmem : e' ∈ sanctioned_names := List.mem_of_find?_eq_some he'
    refine ⟨?_, e', hmem, ?_⟩ <;>
      simp [simulate_ofac_check, hex, fuzzy_match_entry] at he' ⊢ <;>
      simp [he']

/-- Witness for C7: `"STEPHANIE  martin "` exactly matches the denylist
entry `"Stephanie Martin"` after normalization, and `"John Q Terrorist"`
(no exact match, two shared tokens with `"John Terrorist"`) triggers the
fuzzy rule. -/
theorem denylist_matching_witness :
    ("Stephanie Martin" ∈ sanctioned_names ∧
      normalize_name "STEPHANIE  martin " =
        normalize_name "Stephanie Martin" ∧
      simulate_ofac_check 0 "STEPHANIE  martin " =
        (false, exact_match_status "Stephanie Martin")) ∧
    ((∀ e ∈ sanctioned_names,
        normalize_name "John Q Terrorist" ≠ normalize_name e) ∧
      ("John Terrorist" ∈ sanctioned_names ∧
        2 ≤ shared_token_count (normalize_name "John Q Terrorist")
          (normalize_name "John Terrorist")) ∧
      (simulate_ofac_check 0 "John Q Terrorist").1 = false ∧
      ∃ e ∈ sanctioned_names,
        (simulate_ofac_check 0 "John Q Terrorist").2 =
          fuzzy_match_status e) :=
  ⟨⟨by decide, by decide,
    (denylist_matching "STEPHANIE  martin " 0).1 "Stephanie Martin"
      (by decide) (by decide)⟩,
    by decide, ⟨by decide, by decide⟩,
    (denylist_matching "John Q Terrorist" 0).2 (by decide)
      ⟨"John Terrorist", by decide, by decide⟩⟩

/-- Counterexample to C7 as stated: a name that exactly equals a denylist
entry also shares two tokens with it, but screening then reports the
exact-match reason, not a "manual review required" partial-match reason, so
the fuzzy-rule sentence is not literally universal. -/
theorem exact_match_preempts_fuzzy_status :
    "Sanctioned Person" ∈ sanctioned_names ∧
    2 ≤ shared_token_count (normalize_name "Sanctioned Person")
      (normalize_name "Sanctioned Person") ∧
    simulate_ofac_check 0 "Sanctioned Person" =
      (false, exact_match_status "Sanctioned Person") ∧
    mentionsManualReview (simulate_ofac_check 0 "Sanctioned Person").2 =
      false ∧
    mentionsManualReview (fuzzy_match_status "Sanctioned Person") = true :=
  ⟨by decide, by decide, rfl, by decide, by decide⟩

/-- Whether an external-API outcome is an error (anything but an HTTP 200
with a parsed body). -/
def is_error_outcome : ApiOutcome → Bool
  | .success _ _ => false
  | _ => true

/-- C8: screening is fail-closed on every error path.  The embedding of
`check_sanctions` is a total function (it cannot throw), any exception
raised inside the screener — including the empty/whitespace-name rejection —
produces `(false, manual-review status)` with the cache untouched, and every
error outcome of the real external check (rate limit, other HTTP error,
timeout, request failure) produces `false` with a manual-review status. -/
theorem check_sanctions_fail_closed (cfg : OFACConfig) (call : CallEnv)
    (now : Nat) (cache : OFACCache) (name : String) (o : ApiOutcome) :
    (call.raised_fault = true ∨ pyStrip name = "" →
      check_sanctions cfg call now cache name =
        (false, ofac_error_status, cache) ∧
      mentionsManualReview ofac_error_status = true) ∧
    (is_error_outcome o = true →
      (check_real_ofac_api o).1 = false ∧
      mentionsManualReview (check_real_ofac_api o).2 = true) := by
  constructor
  · rintro (h | h)
    · exact ⟨by simp [check_sanctions, h], by decide⟩
    · exact ⟨by simp [check_sanctions, h], by decide⟩
  · intro h
    cases o with
    | success b q => simp [is_error_outcome] at h
    | rateLimited => exact ⟨rfl, by decide⟩
    | httpError c => exact ⟨rfl, rfl⟩
    | timeout => exact ⟨rfl, by decide⟩
    | requestFailed => exact ⟨rfl, by decide⟩

/-- Witness for C8: a raised exception, an empty name, and a timed-out
external check each yield the fail-closed verdict. -/
theorem check_sanctions_fail_closed_witness :
    (callFault.raised_fault = true ∨ pyStrip "" = "") ∧
    (callClean.raised_fault = true ∨ pyStrip "   " = "") ∧
    is_error_outcome .timeout = true ∧
    (check_sanctions cfgSim callFault 0 [] "John Doe" =
        (false, ofac_error_status, []) ∧
      mentionsManualReview ofac_error_status = true) ∧
    (check_sanctions cfgSim callClean 0 [] "   " =
        (false, ofac_error_status, []) ∧
      mentionsManualReview ofac_error_status = true) ∧
    ((check_real_ofac_api .timeout).1 = false ∧
      mentionsManualReview (check_real_ofac_api .timeout).2 = true) :=
  ⟨Or.inl rfl, Or.inr (by decide), rfl,
    (check_sanctions_fail_closed cfgSim callFault 0 [] "John Doe"
      .timeout).1 (Or.inl rfl),
    (check_sanctions_fail_closed cfgSim callClean 0 [] "   "
      .timeout).1 (Or.inr (by decide)),
    (check_sanctions_fail_closed cfgSim callClean 0 [] "x" .timeout).2 rfl⟩

end LoanProc
